import Mathlib

set_option autoImplicit false

namespace Hades

/-!
Shallow embedding of the hades logging facility.

Sources embedded here:
* the per-severity level routing engine of `InitLogger` (logger package),
* the uninitialized-singleton behaviour of the public log functions,
* the correlation-token context helpers (`trace` package, both revisions),
* the Gin HTTP access middleware,
* the GORM query-logging adapter (`GormLogger` in grom_log.go),
* the bounded caller-stack walk, which is described by the design document
  but whose implementation is not present in the sources (only the
  `SkipCallerLookup` toggle is declared); it is modelled from the spec.

Wall-clock times, durations and thresholds are modelled as integers
(`time.Duration` is an integer number of nanoseconds in Go); strings stay
strings; `error` values become an explicit sum type.
-/

/-- The five severities of the logger package: `DebugLevel`, `InfoLevel`,
`WarnLevel`, `ErrorLevel`, `FatalLevel` (iota order, so debug < info <
warn < error < fatal). -/
inductive LogLevel where
  | debug
  | info
  | warn
  | error
  | fatal
deriving DecidableEq, Repr, Fintype

/-- The iota value of a severity, giving the total order used by the claims. -/
def LogLevel.toNat : LogLevel → Nat
  | .debug => 0
  | .info => 1
  | .warn => 2
  | .error => 3
  | .fatal => 4

/-- The zapcore level each severity's dedicated logger is built with, from the
`levelFiles` map of `InitLogger`: Debug ↦ zapcore.DebugLevel (-1),
Info ↦ 0, Warn ↦ 1, Error ↦ 2, Fatal ↦ 5. -/
def zapLevelOf : LogLevel → Int
  | .debug => -1
  | .info => 0
  | .warn => 1
  | .error => 2
  | .fatal => 5

/-- The `switch config.Level` of `InitLogger`, mapping the configured level
string to the minimum severity; any unknown string defaults to info. -/
def parseLevel : String → LogLevel
  | "debug" => .debug
  | "info" => .info
  | "warn" => .warn
  | "error" => .error
  | "fatal" => .fatal
  | _ => .info

/-- The `zap.LevelEnablerFunc` installed on each per-severity core:
`lvl == info.zapLevel && lvl >= zapLevel` — the record's level must equal the
stream's own level and be at least the configured minimum. -/
def levelEnabler (streamLevel minLevel lvl : Int) : Bool :=
  lvl == streamLevel && decide (minLevel ≤ lvl)

/-- The per-severity streams that receive a record when the public log
function at severity `s` runs: the function invokes only its own severity's
dedicated logger, whose single core writes to the severity's syncer exactly
when the level enabler accepts the record's level. -/
def logWrites (minConf : String) (s : LogLevel) : List LogLevel :=
  if levelEnabler (zapLevelOf s) (zapLevelOf (parseLevel minConf)) (zapLevelOf s) then
    [s]
  else
    []

/-- The zap level assignment is strictly monotone in the severity order. -/
theorem zapLevelOf_strictMono (a b : LogLevel) (h : a.toNat < b.toNat) :
    zapLevelOf a < zapLevelOf b := by
  revert h; cases a <;> cases b <;> decide

/-- The zap level assignment is monotone in the severity order. -/
theorem zapLevelOf_mono (a b : LogLevel) (h : a.toNat ≤ b.toNat) :
    zapLevelOf a ≤ zapLevelOf b := by
  revert h; cases a <;> cases b <;> decide

/-- Distinct severities get distinct zap levels. -/
theorem zapLevelOf_inj (a b : LogLevel) (h : zapLevelOf a = zapLevelOf b) :
    a = b := by
  revert h; cases a <;> cases b <;> decide

/-- C1: a log call at a severity strictly below the configured minimum writes
to no stream at all — the enabler of the only core the call reaches rejects
the record, so nothing is emitted. -/
theorem level_filtering (minConf : String) (s : LogLevel)
    (h : s.toNat < (parseLevel minConf).toNat) :
    logWrites minConf s = [] := by
  have hz : zapLevelOf s < zapLevelOf (parseLevel minConf) :=
    zapLevelOf_strictMono _ _ h
  unfold logWrites
  rw [if_neg]
  simp only [levelEnabler, Bool.and_eq_true, beq_iff_eq, decide_eq_true_eq, not_and]
  intro _
  omega

/-- Witness for C1 at minimum "warn" and severity debug. -/
theorem level_filtering_witness :
    LogLevel.debug.toNat < (parseLevel "warn").toNat ∧ logWrites "warn" .debug = [] :=
  ⟨by decide, level_filtering "warn" .debug (by decide)⟩

/-- C2: a record emitted at severity `s` at or above the configured minimum is
written exactly to the stream of `s` and to no other severity's stream; in
particular the enabler of any other severity's core rejects a record at
level `s`, because each enabler accepts exactly its own zap level. -/
theorem stream_separation (minConf : String) (s t : LogLevel)
    (hs : (parseLevel minConf).toNat ≤ s.toNat) (ht : t ≠ s) :
    logWrites minConf s = [s] ∧ t ∉ logWrites minConf s ∧
      levelEnabler (zapLevelOf t) (zapLevelOf (parseLevel minConf)) (zapLevelOf s) = false := by
  have hz : zapLevelOf (parseLevel minConf) ≤ zapLevelOf s :=
    zapLevelOf_mono _ _ hs
  have hwrites : logWrites minConf s = [s] := by
    unfold logWrites
    rw [if_pos]
    simp only [levelEnabler, Bool.and_eq_true, beq_self_eq_true, true_and, decide_eq_true_eq]
    exact hz
  refine ⟨hwrites, ?_, ?_⟩
  · rw [hwrites]
    simp [ht]
  · simp only [levelEnabler, Bool.and_eq_false_iff, beq_eq_false_iff_ne, ne_eq]
    left
    intro hzz
    exact ht (zapLevelOf_inj _ _ hzz).symm

/-- Witness for C2 at minimum "info", severity warn, other stream error. -/
theorem stream_separation_witness :
    (parseLevel "info").toNat ≤ LogLevel.warn.toNat ∧ LogLevel.error ≠ LogLevel.warn ∧
      (logWrites "info" .warn = [.warn] ∧ LogLevel.error ∉ logWrites "info" .warn ∧
        levelEnabler (zapLevelOf .error) (zapLevelOf (parseLevel "info")) (zapLevelOf .warn) = false) :=
  ⟨by decide, by decide, stream_separation "info" .warn .error (by decide) (by decide)⟩

/-!
Uninitialized-singleton behaviour of the public log functions
(`Debug`, `Info`, `Warn`, `Error`, `Fatal`, `LogCustomError`).
Each checks `globalLogger == nil || globalLogger.levelLoggers[lvl] == nil`
and, when the check fires, prints "logger not initialized" to stderr; all of
them then return — except `Fatal`, whose nil branch calls `os.Exit(1)`, and
whose initialized path also terminates the process (zap's `Fatal`).
-/

/-- The observable part of the global logger singleton: which per-severity
loggers are present in the `levelLoggers` map. -/
structure LoggerState where
  hasLevelLogger : LogLevel → Bool

/-- What one public log call does, at the granularity the claims use: whether
a diagnostic line goes to stderr, whether a record is handed to a
per-severity logger, and whether the process is terminated. -/
structure CallEffect where
  stderrDiag : Bool
  emitsRecord : Bool
  exitsProcess : Bool
deriving DecidableEq, Repr

/-- The `Debug` public function. -/
def debugCall (g : Option LoggerState) : CallEffect :=
  match g with
  | none => ⟨true, false, false⟩
  | some l => if l.hasLevelLogger .debug then ⟨false, true, false⟩ else ⟨true, false, false⟩

/-- The `Info` public function. -/
def infoCall (g : Option LoggerState) : CallEffect :=
  match g with
  | none => ⟨true, false, false⟩
  | some l => if l.hasLevelLogger .info then ⟨false, true, false⟩ else ⟨true, false, false⟩

/-- The `Warn` public function. -/
def warnCall (g : Option LoggerState) : CallEffect :=
  match g with
  | none => ⟨true, false, false⟩
  | some l => if l.hasLevelLogger .warn then ⟨false, true, false⟩ else ⟨true, false, false⟩

/-- The `Error` public function. -/
def errorCall (g : Option LoggerState) : CallEffect :=
  match g with
  | none => ⟨true, false, false⟩
  | some l => if l.hasLevelLogger .error then ⟨false, true, false⟩ else ⟨true, false, false⟩

/-- The `Fatal` public function: its nil branch prints the diagnostic and then
calls `os.Exit(1)`, and its initialized branch logs through zap's `Fatal`,
which also terminates the process. -/
def fatalCall (g : Option LoggerState) : CallEffect :=
  match g with
  | none => ⟨true, false, true⟩
  | some l => if l.hasLevelLogger .fatal then ⟨false, true, true⟩ else ⟨true, false, true⟩

/-- The `LogCustomError` public function (routes to the error-level logger). -/
def logCustomErrorCall (g : Option LoggerState) : CallEffect :=
  match g with
  | none => ⟨true, false, false⟩
  | some l => if l.hasLevelLogger .error then ⟨false, true, false⟩ else ⟨true, false, false⟩

/-- The six public log functions of the logger package. -/
inductive PublicFn where
  | debugFn
  | infoFn
  | warnFn
  | errorFn
  | fatalFn
  | logCustomErrorFn
deriving DecidableEq, Repr, Fintype

/-- Dispatch a public log call. -/
def publicCall : PublicFn → Option LoggerState → CallEffect
  | .debugFn => debugCall
  | .infoFn => infoCall
  | .warnFn => warnCall
  | .errorFn => errorCall
  | .fatalFn => fatalCall
  | .logCustomErrorFn => logCustomErrorCall

/-- C6 counterexample: with the singleton absent, `Fatal` prints the stderr
diagnostic and then terminates the process via `os.Exit(1)` instead of
returning to the caller, refuting the claim that every public log function
returns without terminating. -/
theorem fatal_uninit_exits :
    publicCall .fatalFn none = ⟨true, false, true⟩ ∧
      (publicCall .fatalFn none).exitsProcess ≠ false := by
  exact ⟨rfl, by decide⟩

/-- C6 amended: with the singleton absent, every public log function prints
exactly the one-line stderr diagnostic and emits no record; every function
except `Fatal` returns to the caller without terminating the process, while
`Fatal` terminates it. -/
theorem uninit_call_policy (f : PublicFn) :
    (publicCall f none).stderrDiag = true ∧
      (publicCall f none).emitsRecord = false ∧
      (publicCall f none).exitsProcess = decide (f = PublicFn.fatalFn) := by
  cases f <;> exact ⟨rfl, rfl, rfl⟩

/-!
Correlation context. Two revisions exist in the sources:
* the trace package revision keyed by the string-typed key `traceIDKey`
  (value "traceID"), whose `GetTraceID` returns "" when absent, and
* the trace/trace.go revision keyed by the struct key `traceIDKey{}`, whose
  `getTraceID` returns "unknown" when absent.
A Go `context.Context` value chain is modelled as an association list, most
recently attached pair first, exactly the lookup order of `ctx.Value`.
-/

/-- The context keys the trace package uses (plus foreign keys other code
might store). `traceIDString` is the `contextKey("traceID")` key;
`traceIDStruct` is the `traceIDKey{}` struct key. -/
inductive CtxKey where
  | traceIDString
  | traceIDStruct
  | foreignKey (s : String)
deriving DecidableEq, Repr

/-- A value stored in a context: the trace package stores strings; anything
else a foreign package might store is collapsed into `nonStr`. -/
inductive GoVal where
  | str (s : String)
  | nonStr
deriving DecidableEq, Repr

/-- `ctx.Value`: walk the chain from the innermost derived context outwards
and return the first value stored under the key. -/
def ctxValue : List (CtxKey × GoVal) → CtxKey → Option GoVal
  | [], _ => none
  | (k, v) :: rest, key => if k = key then some v else ctxValue rest key

/-- `context.WithValue`: derive a context carrying one more pair. -/
def withValue (ctx : List (CtxKey × GoVal)) (k : CtxKey) (v : GoVal) :
    List (CtxKey × GoVal) :=
  (k, v) :: ctx

/-- `GetTraceID` of the string-key revision: type-assert the stored value to
string and return it when non-empty, else return the absent value "". -/
def GetTraceID (ctx : List (CtxKey × GoVal)) : String :=
  match ctxValue ctx .traceIDString with
  | some (.str s) => if s ≠ "" then s else ""
  | _ => ""

/-- `getTraceID` of the struct-key revision: type-assert the stored value to
string and return it, else return the absent value "unknown". -/
def getTraceID (ctx : List (CtxKey × GoVal)) : String :=
  match ctxValue ctx .traceIDStruct with
  | some (.str s) => s
  | _ => "unknown"

/-- Token attachment done by `TraceIDMiddleware` (string-key revision):
`context.WithValue(ctx, traceIDKey, traceID)`. -/
def attachTraceID (ctx : List (CtxKey × GoVal)) (t : String) : List (CtxKey × GoVal) :=
  withValue ctx .traceIDString (.str t)

/-- Token attachment done by `TraceIDMiddleware` (struct-key revision):
`context.WithValue(ctx, traceIDKey{}, traceID)`. -/
def attachTraceIDCtx (ctx : List (CtxKey × GoVal)) (t : String) : List (CtxKey × GoVal) :=
  withValue ctx .traceIDStruct (.str t)

/-- C5: the correlation token round-trips — looking a token up in the context
produced by attaching it returns exactly that token (in both revisions), and
looking up a context that never had a token attached returns the revision's
designated absent value ("" resp. "unknown"), never a token from elsewhere. -/
theorem trace_roundtrip (ctx : List (CtxKey × GoVal)) (t : String) :
    GetTraceID (attachTraceID ctx t) = t ∧
      getTraceID (attachTraceIDCtx ctx t) = t ∧
      (ctxValue ctx CtxKey.traceIDString = none → GetTraceID ctx = "") ∧
      (ctxValue ctx CtxKey.traceIDStruct = none → getTraceID ctx = "unknown") := by
  refine ⟨?_, ?_, ?_, ?_⟩
  · unfold GetTraceID attachTraceID withValue ctxValue
    by_cases ht : t = "" <;> simp [ht]
  · unfold getTraceID attachTraceIDCtx withValue ctxValue
    simp
  · intro h1
    unfold GetTraceID
    rw [h1]
  · intro h2
    unfold getTraceID
    rw [h2]

/-- Witness for C5: attaching the token "fresh" over a context that already
carries the stale token "stale" yields "fresh" in both revisions (the
innermost attachment shadows the stale one), and the empty, never-attached
context yields each revision's designated absent value. -/
theorem trace_roundtrip_witness :
    (GetTraceID (attachTraceID (attachTraceID [] "stale") "fresh") = "fresh" ∧
        getTraceID (attachTraceIDCtx (attachTraceIDCtx [] "stale") "fresh") = "fresh") ∧
      (GetTraceID [] = "" ∧ getTraceID [] = "unknown") :=
  ⟨⟨(trace_roundtrip (attachTraceID [] "stale") "fresh").1,
      (trace_roundtrip (attachTraceIDCtx [] "stale") "fresh").2.1⟩,
    ⟨(trace_roundtrip [] "never").2.2.1 rfl, (trace_roundtrip [] "never").2.2.2 rfl⟩⟩

/-!
The Gin access-log middleware (`GinMiddleware`). After `c.Next()` returns it
builds one shared field slice {status, method, path, query, ip, user-agent,
latency} and then either emits one error record per entry of `c.Errors`
through the global `Error` function (error stream), or, when no handler
error was recorded, exactly one "request processed" info record through the
access logger (access stream).
-/

/-- One completed request/response cycle, as the middleware observes it after
the handler pipeline returned. -/
structure GinCycle where
  status : Int
  method : String
  path : String
  query : String
  ip : String
  userAgent : String
  latency : Int
  errors : List String
deriving DecidableEq, Repr

/-- The shared field set the middleware builds once per cycle. -/
structure HttpFields where
  status : Int
  method : String
  path : String
  query : String
  ip : String
  userAgent : String
  latency : Int
deriving DecidableEq, Repr

/-- The two streams the middleware can hand a record to. -/
inductive HttpStream where
  | errorStream
  | accessStream
deriving DecidableEq, Repr

/-- A record the middleware hands to the logging layer. -/
structure HttpLogRecord where
  stream : HttpStream
  level : LogLevel
  message : String
  fields : HttpFields
deriving DecidableEq, Repr

/-- The field slice built by the middleware from the cycle. -/
def sharedFields (c : GinCycle) : HttpFields :=
  ⟨c.status, c.method, c.path, c.query, c.ip, c.userAgent, c.latency⟩

/-- One `Error(ctx, err.Error(), fields...)` call made inside the loop over
`c.Errors`: an error-severity record on the error stream. -/
def emitError (fds : HttpFields) (msg : String) : HttpLogRecord :=
  ⟨.errorStream, .error, msg, fds⟩

/-- The `accessLogger.Info("request processed", fields...)` call: an
info-severity record on the access stream. -/
def emitAccess (fds : HttpFields) : HttpLogRecord :=
  ⟨.accessStream, .info, "request processed", fds⟩

/-- The records the middleware emits for one cycle: the
`if len(c.Errors) > 0` branch loops over the recorded errors accumulating
one error record each; the else branch emits the single access record. -/
def ginMiddlewareRecords (c : GinCycle) : List HttpLogRecord :=
  let fds := sharedFields c
  if c.errors.length > 0 then
    c.errors.foldl (fun acc e => acc ++ [emitError fds e]) []
  else
    [emitAccess fds]

/-- Accumulating one record per list entry is the same as mapping. -/
theorem foldl_emit_eq_map (fds : HttpFields) (l : List String) (acc : List HttpLogRecord) :
    l.foldl (fun a e => a ++ [emitError fds e]) acc = acc ++ l.map (emitError fds) := by
  induction l generalizing acc with
  | nil => simp
  | cons e rest ih => simp [List.foldl_cons, ih]

/-- C7: a cycle with recorded handler errors yields exactly one error-stream
record per recorded error, each carrying the same shared field set and
severity error, and no access record; a cycle without errors yields exactly
the single info access record. -/
theorem gin_middleware_emission (c : GinCycle) :
    (c.errors ≠ [] →
        ginMiddlewareRecords c = c.errors.map (emitError (sharedFields c))) ∧
      (c.errors = [] →
        ginMiddlewareRecords c = [emitAccess (sharedFields c)]) := by
  constructor
  · intro h
    unfold ginMiddlewareRecords
    rw [if_pos (List.length_pos.mpr h)]
    simpa using foldl_emit_eq_map (sharedFields c) c.errors []
  · intro h
    unfold ginMiddlewareRecords
    rw [if_neg]
    simp [h]

/-- Witness for C7 on a status-500 cycle with two recorded handler errors:
exactly two error-stream records sharing the field set, no access record. -/
theorem gin_middleware_emission_witness :
    ginMiddlewareRecords ⟨500, "GET", "/users", "id=7", "10.0.0.1", "curl", 12, ["boom", "crash"]⟩ =
      [emitError (sharedFields ⟨500, "GET", "/users", "id=7", "10.0.0.1", "curl", 12, ["boom", "crash"]⟩) "boom",
        emitError (sharedFields ⟨500, "GET", "/users", "id=7", "10.0.0.1", "curl", 12, ["boom", "crash"]⟩) "crash"] := by
  have h :=
    (gin_middleware_emission ⟨500, "GET", "/users", "id=7", "10.0.0.1", "curl", 12, ["boom", "crash"]⟩).1
      (by simp)
  rw [h]
  rfl

/-!
The GORM query-logging adapter (`GormLogger` in grom_log.go). Its custom
level enumeration is `Silent = 0 < Error = 1 < Warn = 2 < Info = 3 <
Debug = 4`; GORM's own `logger.LogLevel` constants are `Silent = 1,
Error = 2, Warn = 3, Info = 4` (iota + 1). `Trace` returns immediately when
the shared logger's level is at most Silent, otherwise classifies the query:
hard error (unless the suppressible record-not-found), then slow query, then
debug trace, else nothing. `LogMode` copies the adapter struct with
`newLogger := *l`, but the `Logger` field is a pointer, so the switch inside
mutates the level of the logger shared with the receiver.
-/

namespace GLvl

/-- The adapter's custom Silent level (0). -/
def Silent : Int := 0

/-- The adapter's custom Error level (1). -/
def Error : Int := 1

/-- The adapter's custom Warn level (2). -/
def Warn : Int := 2

/-- The adapter's custom Info level (3). -/
def Info : Int := 3

/-- The adapter's custom Debug level (4). -/
def Debug : Int := 4

end GLvl

namespace GormLib

/-- GORM's logger.Silent constant (iota + 1 = 1). -/
def Silent : Int := 1

/-- GORM's logger.Error constant (2). -/
def Error : Int := 2

/-- GORM's logger.Warn constant (3). -/
def Warn : Int := 3

/-- GORM's logger.Info constant (4). -/
def Info : Int := 4

end GormLib

/-- The error argument handed to `Trace`: nil, GORM's
`gorm.ErrRecordNotFound`, or any other error. -/
inductive SqlErr where
  | noErr
  | recordNotFound
  | otherErr (msg : String)
deriving DecidableEq, Repr

/-- One structured field of a query record. -/
inductive GField where
  | sqlF (s : String)
  | rowsF (n : Int)
  | elapsedF (d : Int)
  | errF (e : SqlErr)
deriving DecidableEq, Repr

/-- The severity a query record is emitted at. -/
inductive GSev where
  | errorSev
  | warnSev
  | debugSev
deriving DecidableEq, Repr

/-- The message of a query record: "gorm error", the formatted
"SLOW SQL >= threshold", or "gorm trace". -/
inductive GMsg where
  | gormError
  | slowSql (threshold : Int)
  | gormTraceMsg
deriving DecidableEq, Repr

/-- A record emitted by the adapter's `Trace`. -/
structure GormRecord where
  sev : GSev
  msg : GMsg
  fields : List GField
deriving DecidableEq, Repr

/-- The adapter state that decides `Trace`'s behaviour: the shared `*Logger`'s
level plus the adapter's own `SlowThreshold`, `SkipCallerLookup` and
`IgnoreRecordNotFoundErr` fields. Durations are in milliseconds. -/
structure GormLoggerCfg where
  level : Int
  slowThreshold : Int
  skipCallerLookup : Bool
  ignoreRecordNotFoundErr : Bool
deriving DecidableEq, Repr

/-- `NewGormLogger`: threshold 200ms, caller lookup on, record-not-found
suppression on, over a shared logger at the given level. -/
def NewGormLogger (lvl : Int) : GormLoggerCfg :=
  ⟨lvl, 200, false, true⟩

/-- The adapter's `Trace` method: the record it emits, if any. Source order:
the `l.Logger.level <= Silent` early return, then the switch whose cases are
(1) a non-suppressed error, (2) a slow query over a non-zero threshold,
(3) level Debug, else no record. -/
def GormLoggerCfg.Trace (l : GormLoggerCfg) (elapsed : Int) (sql : String)
    (rows : Int) (err : SqlErr) : Option GormRecord :=
  if l.level ≤ GLvl.Silent then
    none
  else
    let fields := [GField.sqlF sql, GField.rowsF rows, GField.elapsedF elapsed]
    if err ≠ SqlErr.noErr ∧ ¬(l.ignoreRecordNotFoundErr = true ∧ err = SqlErr.recordNotFound) then
      some ⟨GSev.errorSev, GMsg.gormError, fields ++ [GField.errF err]⟩
    else if l.slowThreshold < elapsed ∧ l.slowThreshold ≠ 0 then
      some ⟨GSev.warnSev, GMsg.slowSql l.slowThreshold, fields⟩
    else if l.level = GLvl.Debug then
      some ⟨GSev.debugSev, GMsg.gormTraceMsg, fields⟩
    else
      none

/-- Whether an emitted record has error severity. -/
def hasErrorSeverity : Option GormRecord → Bool
  | some r => r.sev == GSev.errorSev
  | none => false

/-- The shared logger's level after `LogMode(want)`: the switch maps GORM's
four constants onto the custom levels and writes the result through the
`Logger` pointer shared by the receiver and the returned copy; any other
argument leaves the level untouched. -/
def logModeSharedLevel (want cur : Int) : Int :=
  if want = GormLib.Silent then GLvl.Silent
  else if want = GormLib.Error then GLvl.Error
  else if want = GormLib.Warn then GLvl.Warn
  else if want = GormLib.Info then GLvl.Info
  else cur

/-- The adapter state observed through the original receiver after
`LogMode(want)` — identical to the returned copy, because `newLogger := *l`
duplicates the struct but both share the same `*Logger`. -/
def GormLoggerCfg.LogMode (l : GormLoggerCfg) (want : Int) : GormLoggerCfg :=
  { l with level := logModeSharedLevel want l.level }

/-- C3 counterexample: with the shared logger at level Silent, an err-free
query 100ms over the 200ms threshold emits no record at all, so no warn-
severity slow-query record is produced, refuting the claim as stated. -/
theorem trace_silent_slow_no_warn :
    GormLoggerCfg.Trace ⟨GLvl.Silent, 200, false, true⟩ 300 "SELECT 1" 5 SqlErr.noErr = none ∧
      (none : Option GormRecord) ≠
        some ⟨GSev.warnSev, GMsg.slowSql 200,
          [GField.sqlF "SELECT 1", GField.rowsF 5, GField.elapsedF 300]⟩ := by
  exact ⟨by decide, by decide⟩

/-- C3 amended: provided the shared logger's level is above Silent, an
err-free `Trace` call emits exactly one warn-severity slow-query record with
fields {sql, rows, elapsed} when the query is over a non-zero threshold,
otherwise exactly one debug record when the level is Debug, otherwise no
record at all. -/
theorem trace_ok_classification (l : GormLoggerCfg) (elapsed : Int) (sql : String)
    (rows : Int) (h : GLvl.Silent < l.level) :
    l.Trace elapsed sql rows SqlErr.noErr =
      (if l.slowThreshold < elapsed ∧ l.slowThreshold ≠ 0 then
        some ⟨GSev.warnSev, GMsg.slowSql l.slowThreshold,
          [GField.sqlF sql, GField.rowsF rows, GField.elapsedF elapsed]⟩
      else if l.level = GLvl.Debug then
        some ⟨GSev.debugSev, GMsg.gormTraceMsg,
          [GField.sqlF sql, GField.rowsF rows, GField.elapsedF elapsed]⟩
      else
        none) := by
  unfold GormLoggerCfg.Trace
  rw [if_neg (by omega)]
  rw [if_neg (fun hc => hc.1 rfl)]

/-- Witness for C3: level Debug, threshold 200ms, elapsed 300ms, no error —
one warn-severity slow-query record. -/
theorem trace_ok_classification_witness :
    GormLoggerCfg.Trace ⟨GLvl.Debug, 200, false, true⟩ 300 "q" 1 SqlErr.noErr =
      some ⟨GSev.warnSev, GMsg.slowSql 200,
        [GField.sqlF "q", GField.rowsF 1, GField.elapsedF 300]⟩ := by
  have h := trace_ok_classification ⟨GLvl.Debug, 200, false, true⟩ 300 "q" 1 (by decide)
  rw [h]
  decide

/-- C4 counterexample: with the shared logger at level Silent, a `Trace` call
whose error is not the suppressible record-not-found emits no record at all,
so no error-severity record is produced, refuting the claim as stated. -/
theorem trace_silent_error_no_record :
    GormLoggerCfg.Trace ⟨GLvl.Silent, 200, false, true⟩ 5 "SELECT 1" 0
        (SqlErr.otherErr "connection refused") = none ∧
      (none : Option GormRecord) ≠
        some ⟨GSev.errorSev, GMsg.gormError,
          [GField.sqlF "SELECT 1", GField.rowsF 0, GField.elapsedF 5,
            GField.errF (SqlErr.otherErr "connection refused")]⟩ := by
  exact ⟨by decide, by decide⟩

/-- C4 amended: provided the shared logger's level is above Silent, a `Trace`
call with a non-nil error emits exactly one error-severity record with
fields {sql, rows, elapsed, error} — unless the error is GORM's
record-not-found and suppression is enabled (the adapter's default), in
which case no error-severity record is emitted. -/
theorem trace_error_classification (l : GormLoggerCfg) (elapsed : Int) (sql : String)
    (rows : Int) (err : SqlErr) (hlvl : GLvl.Silent < l.level) (herr : err ≠ SqlErr.noErr) :
    (¬(l.ignoreRecordNotFoundErr = true ∧ err = SqlErr.recordNotFound) →
        l.Trace elapsed sql rows err =
          some ⟨GSev.errorSev, GMsg.gormError,
            [GField.sqlF sql, GField.rowsF rows, GField.elapsedF elapsed] ++ [GField.errF err]⟩) ∧
      ((l.ignoreRecordNotFoundErr = true ∧ err = SqlErr.recordNotFound) →
        hasErrorSeverity (l.Trace elapsed sql rows err) = false) := by
  constructor
  · intro hnosup
    unfold GormLoggerCfg.Trace
    rw [if_neg (by omega)]
    rw [if_pos ⟨herr, hnosup⟩]
  · intro hsup
    unfold GormLoggerCfg.Trace
    rw [if_neg (by omega)]
    rw [if_neg (fun hc => hc.2 hsup)]
    split_ifs <;> rfl

/-- Witness for C4: level Info, a "connection refused" error — one
error-severity record carrying the error field. -/
theorem trace_error_classification_witness :
    GormLoggerCfg.Trace ⟨GLvl.Info, 200, false, true⟩ 5 "q" 1 (SqlErr.otherErr "connection refused") =
      some ⟨GSev.errorSev, GMsg.gormError,
        [GField.sqlF "q", GField.rowsF 1, GField.elapsedF 5] ++
          [GField.errF (SqlErr.otherErr "connection refused")]⟩ := by
  exact
    (trace_error_classification ⟨GLvl.Info, 200, false, true⟩ 5 "q" 1
        (SqlErr.otherErr "connection refused") (by decide) (by decide)).1
      (by decide)

/-- C10: a suppressed record-not-found error does not silence slow-query
classification — with suppression enabled, a non-zero threshold, the level
above Silent and elapsed over the threshold, `Trace` emits exactly the
warn-severity slow-query record with fields {sql, rows, elapsed} and no
error field. -/
theorem trace_notfound_slow (l : GormLoggerCfg) (elapsed : Int) (sql : String)
    (rows : Int) (h1 : l.ignoreRecordNotFoundErr = true) (h2 : l.slowThreshold ≠ 0)
    (h3 : GLvl.Silent < l.level) (h4 : l.slowThreshold < elapsed) :
    l.Trace elapsed sql rows SqlErr.recordNotFound =
      some ⟨GSev.warnSev, GMsg.slowSql l.slowThreshold,
        [GField.sqlF sql, GField.rowsF rows, GField.elapsedF elapsed]⟩ := by
  unfold GormLoggerCfg.Trace
  rw [if_neg (by omega)]
  rw [if_neg (fun hc => hc.2 ⟨h1, rfl⟩)]
  rw [if_pos ⟨h4, h2⟩]

/-- Witness for C10: the default adapter over an Info-level logger, a
record-not-found query at 300ms over the 200ms threshold. -/
theorem trace_notfound_slow_witness :
    (NewGormLogger GLvl.Info).ignoreRecordNotFoundErr = true ∧
      (NewGormLogger GLvl.Info).slowThreshold ≠ 0 ∧
      GLvl.Silent < (NewGormLogger GLvl.Info).level ∧
      (NewGormLogger GLvl.Info).slowThreshold < 300 ∧
      (NewGormLogger GLvl.Info).Trace 300 "SELECT * FROM users WHERE id = 1" 0
          SqlErr.recordNotFound =
        some ⟨GSev.warnSev, GMsg.slowSql 200,
          [GField.sqlF "SELECT * FROM users WHERE id = 1", GField.rowsF 0,
            GField.elapsedF 300]⟩ :=
  ⟨rfl, by decide, by decide, by decide,
    trace_notfound_slow (NewGormLogger GLvl.Info) 300 "SELECT * FROM users WHERE id = 1" 0
      rfl (by decide) (by decide) (by decide)⟩

/-- C9: `LogMode` is not a no-op — `newLogger := *l` copies the adapter
struct, but the `Logger` field is a pointer, so the switch mutates the level
of the logger shared with the receiver: after `LogMode(Silent)` on the
default Debug-level adapter the shared level is Silent, and a `Trace` call
on the original adapter that previously emitted a debug record now emits
nothing. -/
theorem logmode_mutates_shared_logger :
    ((NewGormLogger GLvl.Debug).LogMode GormLib.Silent).level = GLvl.Silent ∧
      GLvl.Silent ≠ GLvl.Debug ∧
      (NewGormLogger GLvl.Debug).Trace 5 "SELECT 1" 1 SqlErr.noErr =
        some ⟨GSev.debugSev, GMsg.gormTraceMsg,
          [GField.sqlF "SELECT 1", GField.rowsF 1, GField.elapsedF 5]⟩ ∧
      ((NewGormLogger GLvl.Debug).LogMode GormLib.Silent).Trace 5 "SELECT 1" 1 SqlErr.noErr =
        none := by
  exact ⟨by decide, by decide, by decide, by decide⟩

/-!
Caller attribution for the database adapter. The repository declares the
`SkipCallerLookup` toggle on `GormLogger` but the stack-walk routine itself
is not among the source files, so it is modelled from the design document:
walk the call stack starting a fixed number of frames above the adapter's
own frame, skip every frame whose source location belongs to the query-
execution library's own package path, report the first frame that does not,
and report the explicit fallback "unknown" when no such frame is found
within a bounded number of frames.
-/

/-- One call frame: a source path and line. -/
structure Frame where
  file : String
  line : Nat
deriving DecidableEq, Repr

/-- The reported caller location: a concrete frame or the explicit fallback
"unknown". -/
inductive CallerLoc where
  | known (f : Frame)
  | unknown
deriving DecidableEq, Repr

/-- Modelled from the spec: the scan over the frame window — the caller-stack
walk of the database adapter is not among the source files (only its
`SkipCallerLookup` toggle is declared), so this follows section 4.6 of the
design document: skip every frame inside the library path, report the first
frame outside it, fall back to "unknown" when the window is exhausted. -/
def findCallerFrame (isLibFrame : Frame → Bool) : List Frame → CallerLoc
  | [] => CallerLoc.unknown
  | f :: rest => if isLibFrame f then findCallerFrame isLibFrame rest else CallerLoc.known f

/-- Modelled from the spec: caller attribution starts a fixed number `skip`
of frames above the adapter's own frame and inspects at most `bound`
frames. -/
def callerLocation (isLibFrame : Frame → Bool) (skip bound : Nat)
    (stack : List Frame) : CallerLoc :=
  findCallerFrame isLibFrame ((stack.drop skip).take bound)

/-- The scan reports exactly the head of the window with its library-path
frames dropped, or "unknown" when only library frames remain. -/
theorem findCallerFrame_characterization (p : Frame → Bool) (window : List Frame) :
    (∀ f : Frame, findCallerFrame p window = CallerLoc.known f →
        p f = false ∧ (window.dropWhile p).head? = some f) ∧
      (window.all p = true → findCallerFrame p window = CallerLoc.unknown) := by
  induction window with
  | nil =>
    constructor
    · intro f h
      simp [findCallerFrame] at h
    · intro _
      rfl
  | cons f rest ih =>
    constructor
    · intro g h
      by_cases hp : p f
      · rw [findCallerFrame, if_pos hp] at h
        rw [List.dropWhile_cons_of_pos hp]
        exact ih.1 g h
      · rw [findCallerFrame, if_neg hp] at h
        cases h
        rw [List.dropWhile_cons_of_neg hp]
        exact ⟨Bool.eq_false_iff.mpr hp, rfl⟩
    · intro hall
      rw [List.all_cons, Bool.and_eq_true] at hall
      rw [findCallerFrame, if_pos hall.1]
      exact ih.2 hall.2

/-- C8: whenever the bounded walk reports a concrete location, that location
is outside the library path and is the first such frame of the inspected
window (skip frames above the adapter, at most bound frames); whenever every
frame of the window lies inside the library path, the walk reports the
explicit fallback "unknown" — never a location inside the library. -/
theorem caller_attribution (p : Frame → Bool) (skip bound : Nat) (stack : List Frame) :
    (∀ f : Frame, callerLocation p skip bound stack = CallerLoc.known f →
        p f = false ∧ ((((stack.drop skip).take bound).dropWhile p).head? = some f)) ∧
      (((stack.drop skip).take bound).all p = true →
        callerLocation p skip bound stack = CallerLoc.unknown) :=
  findCallerFrame_characterization p ((stack.drop skip).take bound)

/-- A library-path predicate for the witness: frames inside gorm's package. -/
def inGormPath (f : Frame) : Bool :=
  f.file == "gorm.io/gorm/callbacks.go" || f.file == "gorm.io/gorm/finisher_api.go"

/-- An application frame for the witness. -/
def appFrame : Frame :=
  ⟨"app/service/user.go", 42⟩

/-- A call stack for the witness: two adapter frames, two library frames,
then application code. -/
def sampleStack : List Frame :=
  [⟨"hades/logger/grom_log.go", 278⟩, ⟨"hades/logger/grom_log.go", 280⟩,
    ⟨"gorm.io/gorm/callbacks.go", 100⟩, ⟨"gorm.io/gorm/finisher_api.go", 390⟩,
    appFrame, ⟨"app/main.go", 7⟩]

/-- A call stack made of library frames only, for the witness's fallback
half. -/
def libOnlyStack : List Frame :=
  [⟨"hades/logger/grom_log.go", 278⟩, ⟨"hades/logger/grom_log.go", 280⟩,
    ⟨"gorm.io/gorm/callbacks.go", 100⟩, ⟨"gorm.io/gorm/finisher_api.go", 390⟩]

/-- Witness for C8: with skip 2 and bound 15 over the sample stack, the walk
skips both gorm frames and reports the application frame, which lies
outside the library path and heads the de-libraried window; over a window of
library frames only, it reports the fallback "unknown". -/
theorem caller_attribution_witness :
    (inGormPath appFrame = false ∧
        ((((sampleStack.drop 2).take 15).dropWhile inGormPath).head? = some appFrame)) ∧
      callerLocation inGormPath 2 15 libOnlyStack = CallerLoc.unknown :=
  ⟨(caller_attribution inGormPath 2 15 sampleStack).1 appFrame (by decide),
    (caller_attribution inGormPath 2 15 libOnlyStack).2 (by decide)⟩

end Hades
